import Mathlib

/-!
Verification of the ActiveDCA repository: a shallow embedding of the
strategy decision engine (`active_dca_strategy.py`, class `ActiveDCA`,
method `executeStrategy`) and of the backtest runner (`backtest.py`,
class `Backtest`).

Modelling choices:
* Python floats are modelled as exact rationals (`ℚ`); all stated
  identities are exact identities of the underlying arithmetic.
* The in-place mutation of `self.cash` / `self.position` is modelled by
  explicit state passing: `executeStrategy` takes a `PortfolioState` and
  returns the action, the operation amount, and the updated state.
* `Backtest.record_action` rounds the reported fields (price to 1
  decimal, indicator to 3, cash/portfolio value to 1, position to 5)
  for presentation only; the rounding is float-specific and never feeds
  back into the computation, so the embedding records the exact
  pre-rounding values, which are what the stated properties are about.
-/

namespace ActiveDCA

/-- Action labels returned by `executeStrategy` (the strings
`'Hold'`, `'Buy'`, `'Sell'`, `'DipBuy'` in the source). -/
inductive Action where
  | Hold
  | Buy
  | Sell
  | DipBuy
deriving DecidableEq, Repr

/-- Strategy parameters set once in `ActiveDCA.__init__` and never
mutated afterwards. -/
structure StrategyConfig where
  stop_investing : ℚ
  sell_threshold : ℚ
  dip_buy_threshold : ℚ
  invest_percentage : ℚ
  daily_investment : ℚ
  weight_coefficient : ℚ
deriving DecidableEq, Repr

/-- Default parameter values of `ActiveDCA.__init__`:
`stop_investing=1.10, sell_threshold=1.85, dip_buy_threshold=0.6,
invest_percentage=0.7, daily_investment=100, weight_coefficient=1.0`. -/
def defaultConfig : StrategyConfig :=
  { stop_investing := 11/10
    sell_threshold := 185/100
    dip_buy_threshold := 6/10
    invest_percentage := 7/10
    daily_investment := 100
    weight_coefficient := 1 }

/-- Portfolio state mutated by the strategy: the fields `self.cash` and
`self.position` of `ActiveDCA` (`position` starts at `0`, `cash` at the
constructor argument). -/
structure PortfolioState where
  cash : ℚ
  position : ℚ
deriving DecidableEq, Repr

/-- Phase 1 of `executeStrategy` (`active_dca_strategy.py` lines
119-135): the `if`/`elif` chain on `ahr999_value`, preceded by the
unconditional computation of `dynamic_investment`.  Returns
`(action, operation_amount, state)` after the chain, before the
dip-buy overlay. -/
def phase1 (cfg : StrategyConfig) (s : PortfolioState)
    (btc_price ahr999_value : ℚ) : Action × ℚ × PortfolioState :=
  let dynamic_investment :=
    cfg.daily_investment * (cfg.weight_coefficient / ahr999_value)
  if ahr999_value < cfg.stop_investing then
    (Action.Buy, dynamic_investment,
      { s with position := s.position + dynamic_investment / btc_price })
  else if cfg.stop_investing ≤ ahr999_value ∧ ahr999_value < cfg.sell_threshold then
    (Action.Hold, 0, { s with cash := s.cash + cfg.daily_investment })
  else if cfg.sell_threshold ≤ ahr999_value ∧ 0 < s.position then
    let sell_amount := s.position * btc_price
    (Action.Sell, sell_amount, { cash := s.cash + sell_amount, position := 0 })
  else
    (Action.Hold, 0, s)

/-- The method `ActiveDCA.executeStrategy` (lines 119-144) with both
arguments supplied: phase 1 (`phase1`) followed by the dip-buy overlay
(lines 137-142), which re-reads the state left by phase 1 and may
overwrite the returned action and amount. -/
def executeStrategy (cfg : StrategyConfig) (s : PortfolioState)
    (btc_price ahr999_value : ℚ) : Action × ℚ × PortfolioState :=
  let r := phase1 cfg s btc_price ahr999_value
  let s1 := r.2.2
  if ahr999_value < cfg.dip_buy_threshold ∧ 0 < s1.cash then
    let invest_amount := s1.cash * cfg.invest_percentage
    (Action.DipBuy, invest_amount,
      { cash := s1.cash - invest_amount,
        position := s1.position + invest_amount / btc_price })
  else
    r

/-- Condition under which the dip-buy overlay (lines 137-142) fires:
the indicator is below `dip_buy_threshold` and the cash left by
phase 1 is positive. -/
def dipOverlayFires (cfg : StrategyConfig) (s : PortfolioState)
    (btc_price ahr999_value : ℚ) : Prop :=
  ahr999_value < cfg.dip_buy_threshold ∧
    0 < (phase1 cfg s btc_price ahr999_value).2.2.cash

instance (cfg : StrategyConfig) (s : PortfolioState) (p v : ℚ) :
    Decidable (dipOverlayFires cfg s p v) :=
  inferInstanceAs (Decidable (v < cfg.dip_buy_threshold ∧
    0 < (phase1 cfg s p v).2.2.cash))

/-- Variant of `executeStrategy` in which every division performed by
the source is guarded: the computation of `dynamic_investment`
(line 119, executed unconditionally on every call) divides by
`ahr999_value`, and lines 124 and 139 divide by `btc_price`.  The
guarded variant returns `none` exactly when the source would attempt a
division by zero, and otherwise the same result. -/
def executeStrategyChecked (cfg : StrategyConfig) (s : PortfolioState)
    (btc_price ahr999_value : ℚ) : Option (Action × ℚ × PortfolioState) :=
  if ahr999_value = 0 then none
  else
    let dynamic_investment :=
      cfg.daily_investment * (cfg.weight_coefficient / ahr999_value)
    let step1 : Option (Action × ℚ × PortfolioState) :=
      if ahr999_value < cfg.stop_investing then
        if btc_price = 0 then none
        else some (Action.Buy, dynamic_investment,
          { s with position := s.position + dynamic_investment / btc_price })
      else if cfg.stop_investing ≤ ahr999_value ∧ ahr999_value < cfg.sell_threshold then
        some (Action.Hold, 0, { s with cash := s.cash + cfg.daily_investment })
      else if cfg.sell_threshold ≤ ahr999_value ∧ 0 < s.position then
        let sell_amount := s.position * btc_price
        some (Action.Sell, sell_amount,
          { cash := s.cash + sell_amount, position := 0 })
      else
        some (Action.Hold, 0, s)
    match step1 with
    | none => none
    | some (a, m, s1) =>
      if ahr999_value < cfg.dip_buy_threshold ∧ 0 < s1.cash then
        if btc_price = 0 then none
        else
          let invest_amount := s1.cash * cfg.invest_percentage
          some (Action.DipBuy, invest_amount,
            { cash := s1.cash - invest_amount,
              position := s1.position + invest_amount / btc_price })
      else
        some (a, m, s1)

/-- The method `ActiveDCA.executeStrategy` with its optional arguments
(lines 105-117): when either argument is `None` the source replaces
both by the result of `calculateActiveDCA`, a network fetch modelled
here as an external oracle `fetch : Option (ℚ × ℚ)` carrying
`(ahr999_value, btc_price)`; a failed fetch (`none`) aborts the call
(`return None, None`) without touching the state. -/
def executeStrategyOpt (fetch : Option (ℚ × ℚ)) (cfg : StrategyConfig)
    (s : PortfolioState) (btc_price ahr999_value : Option ℚ) :
    Option (Action × ℚ) × PortfolioState :=
  match btc_price, ahr999_value with
  | some p, some v =>
    let r := executeStrategy cfg s p v
    (some (r.1, r.2.1), r.2.2)
  | _, _ =>
    match fetch with
    | none => (none, s)
    | some (v, p) =>
      let r := executeStrategy cfg s p v
      (some (r.1, r.2.1), r.2.2)

/-- One row of the historical input series consumed by
`Backtest.run_backtest` (`Date`, `btc_price`, `ahr999`).  The date is
kept as the raw `YYYYMMDD` number. -/
structure IndicatorSample where
  date : ℕ
  btc_price : ℚ
  ahr999 : ℚ
deriving DecidableEq, Repr

/-- One entry of `Backtest.daily_actions` as assembled by
`record_action`, with the exact pre-rounding field values (see the
module comment: `record_action` applies presentation-only rounding). -/
structure ActionRecord where
  date : ℕ
  bitcoin_price : ℚ
  ahr999 : ℚ
  cash_holdings : ℚ
  bitcoin_quantity : ℚ
  action : Action
  operation_amount : ℚ
  portfolio_value : ℚ
deriving DecidableEq, Repr

/-- The method `Backtest.calculate_portfolio_value` (`backtest.py`
lines 48-56): `cash + (position * btc_price)`. -/
def calculate_portfolio_value (position btc_price cash : ℚ) : ℚ :=
  cash + position * btc_price

/-- One iteration of the loop in `Backtest.run_backtest` (lines 21-29):
run `executeStrategy` on the sample, then compute the portfolio value
from the post-decision state and assemble the record passed to
`record_action`. -/
def runStep (cfg : StrategyConfig) (s : PortfolioState)
    (sample : IndicatorSample) : ActionRecord × PortfolioState :=
  let r := executeStrategy cfg s sample.btc_price sample.ahr999
  let s' := r.2.2
  let current_value := calculate_portfolio_value s'.position sample.btc_price s'.cash
  ({ date := sample.date
     bitcoin_price := sample.btc_price
     ahr999 := sample.ahr999
     cash_holdings := s'.cash
     bitcoin_quantity := s'.position
     action := r.1
     operation_amount := r.2.1
     portfolio_value := current_value }, s')

/-- The loop of `Backtest.run_backtest` (lines 21-29): a strict
left-to-right fold over the sample series, each step starting from the
state left by the previous one, producing one `ActionRecord` per
sample. -/
def run_backtest (cfg : StrategyConfig) (s : PortfolioState) :
    List IndicatorSample → List ActionRecord
  | [] => []
  | sample :: rest =>
    let step := runStep cfg s sample
    step.1 :: run_backtest cfg step.2 rest

/-- The loop of `Backtest.run_backtest` driving the optional-argument
entry point `executeStrategyOpt` the way the source calls it (both
`btc_price` and `ahr999_value` supplied from the data frame), with the
fetch oracle threaded through.  A `None` decision (impossible on this
path) would crash the source loop; it is modelled by `none`. -/
def run_backtestOpt (fetch : Option (ℚ × ℚ)) (cfg : StrategyConfig)
    (s : PortfolioState) : List IndicatorSample → Option (List ActionRecord)
  | [] => some []
  | sample :: rest =>
    match executeStrategyOpt fetch cfg s (some sample.btc_price) (some sample.ahr999) with
    | (none, _) => none
    | (some am, s') =>
      let current_value := calculate_portfolio_value s'.position sample.btc_price s'.cash
      (run_backtestOpt fetch cfg s' rest).map
        (fun l =>
          { date := sample.date
            bitcoin_price := sample.btc_price
            ahr999 := sample.ahr999
            cash_holdings := s'.cash
            bitcoin_quantity := s'.position
            action := am.1
            operation_amount := am.2
            portfolio_value := current_value } :: l)

/-- C1: when `0 < indicatorValue < stopInvesting` and the indicator is at
least `dipBuyThreshold` (so the dip overlay cannot fire), `executeStrategy`
returns a Buy of `dailyInvestment * (weightCoefficient / indicatorValue)`,
increases the position by exactly that amount divided by the price, and
leaves the cash unchanged: the buy amount is injected capital, never
deducted from cash. -/
theorem C1_buy_regime (cfg : StrategyConfig) (s : PortfolioState)
    (btc_price ahr999_value : ℚ)
    (hv : 0 < ahr999_value)
    (hstop : ahr999_value < cfg.stop_investing)
    (hdip : cfg.dip_buy_threshold ≤ ahr999_value) :
    executeStrategy cfg s btc_price ahr999_value =
      (Action.Buy,
        cfg.daily_investment * (cfg.weight_coefficient / ahr999_value),
        { cash := s.cash,
          position := s.position +
            cfg.daily_investment * (cfg.weight_coefficient / ahr999_value)
              / btc_price }) := by
  have hnd : ¬ ahr999_value < cfg.dip_buy_threshold := not_lt.mpr hdip
  simp [executeStrategy, phase1, hstop, hnd]

/-- C1 witness: Scenario A — default config, cash 10000, price 50000,
indicator 0.9 gives a Buy of `100 * (1 / 0.9)` with cash left at 10000
and the position raised by exactly that amount over the price. -/
theorem C1_buy_regime_witness :
    ((0 : ℚ) < 9/10 ∧ (9/10 : ℚ) < defaultConfig.stop_investing ∧
        defaultConfig.dip_buy_threshold ≤ (9/10 : ℚ)) ∧
      executeStrategy defaultConfig ⟨10000, 0⟩ 50000 (9/10) =
        (Action.Buy, 100 * ((1 : ℚ) / (9/10)),
          { cash := 10000, position := 100 * ((1 : ℚ) / (9/10)) / 50000 }) := by
  have h1 : (0 : ℚ) < 9/10 := by norm_num
  have h2 : (9/10 : ℚ) < defaultConfig.stop_investing := by norm_num [defaultConfig]
  have h3 : defaultConfig.dip_buy_threshold ≤ (9/10 : ℚ) := by norm_num [defaultConfig]
  refine ⟨⟨h1, h2, h3⟩, ?_⟩
  have h := C1_buy_regime defaultConfig ⟨10000, 0⟩ 50000 (9/10) h1 h2 h3
  rw [h]
  norm_num [defaultConfig]

/-- C2: whenever the indicator is below `dipBuyThreshold` and the cash
left by phase 1 is positive, the dip overlay invests
`invest_percentage` of that cash, adds `investAmount / price` to the
phase-1 position, subtracts `investAmount` from the phase-1 cash, and
overwrites the reported action to DipBuy with the invested amount —
on top of whatever phase 1 already did in the same call. -/
theorem C2_dip_overlay (cfg : StrategyConfig) (s : PortfolioState)
    (btc_price ahr999_value : ℚ)
    (hdip : ahr999_value < cfg.dip_buy_threshold)
    (hcash : 0 < (phase1 cfg s btc_price ahr999_value).2.2.cash) :
    executeStrategy cfg s btc_price ahr999_value =
      (Action.DipBuy,
        (phase1 cfg s btc_price ahr999_value).2.2.cash * cfg.invest_percentage,
        { cash := (phase1 cfg s btc_price ahr999_value).2.2.cash -
            (phase1 cfg s btc_price ahr999_value).2.2.cash * cfg.invest_percentage,
          position := (phase1 cfg s btc_price ahr999_value).2.2.position +
            (phase1 cfg s btc_price ahr999_value).2.2.cash * cfg.invest_percentage
              / btc_price }) := by
  simp only [executeStrategy]
  rw [if_pos ⟨hdip, hcash⟩]

/-- C2 witness: Scenario D — default config, cash 1000, price 50000,
indicator 0.5: phase 1 buys 200 (position +0.004), then the overlay
reports DipBuy 700, leaving cash 300 and position
0.018 = 0.004 + 0.014, i.e. both increments applied while only the
dip-buy amount is reported. -/
theorem C2_dip_overlay_witness :
    ((1/2 : ℚ) < defaultConfig.dip_buy_threshold ∧
        0 < (phase1 defaultConfig ⟨1000, 0⟩ 50000 (1/2)).2.2.cash) ∧
      executeStrategy defaultConfig ⟨1000, 0⟩ 50000 (1/2) =
        (Action.DipBuy, 700, ⟨300, 9/500⟩) := by
  have h1 : (1/2 : ℚ) < defaultConfig.dip_buy_threshold := by norm_num [defaultConfig]
  have h2 : 0 < (phase1 defaultConfig ⟨1000, 0⟩ 50000 (1/2)).2.2.cash := by
    norm_num [phase1, defaultConfig]
  refine ⟨⟨h1, h2⟩, ?_⟩
  have h := C2_dip_overlay defaultConfig ⟨1000, 0⟩ 50000 (1/2) h1 h2
  rw [h]
  norm_num [phase1, defaultConfig]

/-- C5 counterexample: with a config whose thresholds are ill-ordered
(`sell_threshold = 0.5 < stop_investing = 1.1`, allowed since ordering
is not enforced), the call with indicator 0.8 satisfies all three
conditions of the claim (indicator above the sell threshold, positive
position, indicator above the dip threshold), yet the `elif` chain
takes the Buy branch — the Sell branch additionally requires the
indicator to be at least `stop_investing`. -/
theorem C5_counterexample :
    ((⟨11/10, 1/2, 2/5, 7/10, 100, 1⟩ : StrategyConfig).sell_threshold ≤ (4/5 : ℚ) ∧
        (0 : ℚ) < (⟨0, 1⟩ : PortfolioState).position ∧
        (⟨11/10, 1/2, 2/5, 7/10, 100, 1⟩ : StrategyConfig).dip_buy_threshold ≤ (4/5 : ℚ)) ∧
      executeStrategy ⟨11/10, 1/2, 2/5, 7/10, 100, 1⟩ ⟨0, 1⟩ 100 (4/5) =
        (Action.Buy, 125, ⟨0, 9/4⟩) ∧
      Action.Buy ≠ Action.Sell := by
  refine ⟨⟨by norm_num, by norm_num, by norm_num⟩, ?_, by simp⟩
  norm_num [executeStrategy, phase1]

/-- C5 (amended): when the indicator is at least `stopInvesting` (as the
`elif` chain requires) and at least `sellThreshold`, the position is
positive, and the indicator is at least `dipBuyThreshold` (no overlay),
`executeStrategy` sells the whole position: action Sell, amount
`position * price`, position cleared, the proceeds added to cash. -/
theorem C5_sell_regime (cfg : StrategyConfig) (s : PortfolioState)
    (btc_price ahr999_value : ℚ)
    (hstop : cfg.stop_investing ≤ ahr999_value)
    (hsell : cfg.sell_threshold ≤ ahr999_value)
    (hpos : 0 < s.position)
    (hdip : cfg.dip_buy_threshold ≤ ahr999_value) :
    executeStrategy cfg s btc_price ahr999_value =
      (Action.Sell, s.position * btc_price,
        { cash := s.cash + s.position * btc_price, position := 0 }) := by
  have h1 : ¬ ahr999_value < cfg.stop_investing := not_lt.mpr hstop
  have h2 : ¬ ahr999_value < cfg.sell_threshold := not_lt.mpr hsell
  have hnd : ¬ ahr999_value < cfg.dip_buy_threshold := not_lt.mpr hdip
  simp [executeStrategy, phase1, h1, h2, hsell, hpos, hnd]

/-- C5 witness: Scenario C — default config, cash 10000, position 1,
price 60000, indicator 2.0 gives Sell with amount 60000, position 0 and
cash 70000. -/
theorem C5_sell_regime_witness :
    (defaultConfig.stop_investing ≤ (2 : ℚ) ∧
        defaultConfig.sell_threshold ≤ (2 : ℚ) ∧
        (0 : ℚ) < (⟨10000, 1⟩ : PortfolioState).position ∧
        defaultConfig.dip_buy_threshold ≤ (2 : ℚ)) ∧
      executeStrategy defaultConfig ⟨10000, 1⟩ 60000 2 =
        (Action.Sell, 60000, ⟨70000, 0⟩) := by
  have h1 : defaultConfig.stop_investing ≤ (2 : ℚ) := by norm_num [defaultConfig]
  have h2 : defaultConfig.sell_threshold ≤ (2 : ℚ) := by norm_num [defaultConfig]
  have h3 : (0 : ℚ) < (⟨10000, 1⟩ : PortfolioState).position := by norm_num
  have h4 : defaultConfig.dip_buy_threshold ≤ (2 : ℚ) := by norm_num [defaultConfig]
  refine ⟨⟨h1, h2, h3, h4⟩, ?_⟩
  have h := C5_sell_regime defaultConfig ⟨10000, 1⟩ 60000 2 h1 h2 h3 h4
  rw [h]
  norm_num

/-- C7: when no phase-1 branch fires (indicator at least
`stopInvesting` and `sellThreshold` but the position is zero) and the
overlay is excluded by the indicator being at least `dipBuyThreshold`,
the call returns Hold with amount 0 and leaves cash and position
completely unchanged — in particular `dailyInvestment` is not added. -/
theorem C7_fallthrough_frame (cfg : StrategyConfig) (s : PortfolioState)
    (btc_price ahr999_value : ℚ)
    (hstop : cfg.stop_investing ≤ ahr999_value)
    (hsell : cfg.sell_threshold ≤ ahr999_value)
    (hdip : cfg.dip_buy_threshold ≤ ahr999_value)
    (hpos : s.position = 0) :
    executeStrategy cfg s btc_price ahr999_value = (Action.Hold, 0, s) := by
  have h1 : ¬ ahr999_value < cfg.stop_investing := not_lt.mpr hstop
  have h2 : ¬ ahr999_value < cfg.sell_threshold := not_lt.mpr hsell
  have hnd : ¬ ahr999_value < cfg.dip_buy_threshold := not_lt.mpr hdip
  have h3 : ¬ 0 < s.position := by rw [hpos]; exact lt_irrefl 0
  simp [executeStrategy, phase1, h1, h2, h3, hnd]

/-- C7 witness: default config, cash 10000, position 0, price 50000,
indicator 2.0: all branches and the overlay miss, the state is
returned untouched with Hold and amount 0. -/
theorem C7_fallthrough_frame_witness :
    (defaultConfig.stop_investing ≤ (2 : ℚ) ∧
        defaultConfig.sell_threshold ≤ (2 : ℚ) ∧
        defaultConfig.dip_buy_threshold ≤ (2 : ℚ) ∧
        (⟨10000, 0⟩ : PortfolioState).position = 0) ∧
      executeStrategy defaultConfig ⟨10000, 0⟩ 50000 2 =
        (Action.Hold, 0, ⟨10000, 0⟩) := by
  have h1 : defaultConfig.stop_investing ≤ (2 : ℚ) := by norm_num [defaultConfig]
  have h2 : defaultConfig.sell_threshold ≤ (2 : ℚ) := by norm_num [defaultConfig]
  have h3 : defaultConfig.dip_buy_threshold ≤ (2 : ℚ) := by norm_num [defaultConfig]
  have h4 : (⟨10000, 0⟩ : PortfolioState).position = 0 := rfl
  exact ⟨⟨h1, h2, h3, h4⟩,
    C7_fallthrough_frame defaultConfig ⟨10000, 0⟩ 50000 2 h1 h2 h3 h4⟩

/-- C4 counterexample: default config, cash 10000, position 0, price
50000, indicator 2.0: the returned action is Hold and the dip overlay
did not fire, yet cash is unchanged (10000), not increased by
`dailyInvestment` — the claim's universal reading over all Hold
results fails on the fallthrough case `indicator ≥ sellThreshold`
with zero position. -/
theorem C4_counterexample :
    executeStrategy defaultConfig ⟨10000, 0⟩ 50000 2 =
      (Action.Hold, 0, ⟨10000, 0⟩) ∧
    ¬ dipOverlayFires defaultConfig ⟨10000, 0⟩ 50000 2 ∧
    (10000 : ℚ) ≠ 10000 + defaultConfig.daily_investment := by
  refine ⟨?_, ?_, by norm_num [defaultConfig]⟩
  · norm_num [executeStrategy, phase1, defaultConfig]
  · norm_num [dipOverlayFires, defaultConfig]

/-- C4 (amended): in the neutral-regime branch
`stopInvesting ≤ indicatorValue < sellThreshold`, when the dip overlay
does not fire, the call returns Hold with amount 0, adds exactly
`dailyInvestment` to cash and leaves the position unchanged.  (A
returned Hold can also arise from the fallthrough case
`indicatorValue ≥ sellThreshold` with zero position, where cash is
unchanged — see C7.) -/
theorem C4_hold_neutral (cfg : StrategyConfig) (s : PortfolioState)
    (btc_price ahr999_value : ℚ)
    (hstop : cfg.stop_investing ≤ ahr999_value)
    (hsell : ahr999_value < cfg.sell_threshold)
    (hov : ¬ dipOverlayFires cfg s btc_price ahr999_value) :
    executeStrategy cfg s btc_price ahr999_value =
      (Action.Hold, 0,
        { cash := s.cash + cfg.daily_investment, position := s.position }) := by
  have h1 : ¬ ahr999_value < cfg.stop_investing := not_lt.mpr hstop
  have hp : phase1 cfg s btc_price ahr999_value =
      (Action.Hold, 0, { s with cash := s.cash + cfg.daily_investment }) := by
    simp [phase1, h1, hstop, hsell]
  simp only [dipOverlayFires, hp] at hov
  simp only [executeStrategy, hp]
  rw [if_neg hov]

/-- C4 witness: Scenario B — default config, cash 10000, position 0,
price 50000, indicator 1.5: Hold, cash becomes 10100, position stays
0. -/
theorem C4_hold_neutral_witness :
    (defaultConfig.stop_investing ≤ (3/2 : ℚ) ∧
        (3/2 : ℚ) < defaultConfig.sell_threshold ∧
        ¬ dipOverlayFires defaultConfig ⟨10000, 0⟩ 50000 (3/2)) ∧
      executeStrategy defaultConfig ⟨10000, 0⟩ 50000 (3/2) =
        (Action.Hold, 0, ⟨10100, 0⟩) := by
  have h1 : defaultConfig.stop_investing ≤ (3/2 : ℚ) := by norm_num [defaultConfig]
  have h2 : (3/2 : ℚ) < defaultConfig.sell_threshold := by norm_num [defaultConfig]
  have h3 : ¬ dipOverlayFires defaultConfig ⟨10000, 0⟩ 50000 (3/2) := by
    norm_num [dipOverlayFires, defaultConfig]
  refine ⟨⟨h1, h2, h3⟩, ?_⟩
  have h := C4_hold_neutral defaultConfig ⟨10000, 0⟩ 50000 (3/2) h1 h2 h3
  rw [h]
  norm_num [defaultConfig]

/-- Helper: phase 1 preserves nonnegativity of cash and position under
the config contract of the spec (positive `daily_investment` and
`weight_coefficient`) and positive price and indicator. -/
theorem phase1_state_nonneg (cfg : StrategyConfig) (s : PortfolioState)
    (btc_price ahr999_value : ℚ)
    (hdi : 0 < cfg.daily_investment) (hwc : 0 < cfg.weight_coefficient)
    (hv : 0 < ahr999_value) (hp : 0 < btc_price)
    (hc : 0 ≤ s.cash) (hq : 0 ≤ s.position) :
    0 ≤ (phase1 cfg s btc_price ahr999_value).2.2.cash ∧
      0 ≤ (phase1 cfg s btc_price ahr999_value).2.2.position := by
  simp only [phase1]
  split_ifs with hA hB hC
  · refine ⟨hc, ?_⟩
    have h0 : 0 ≤ cfg.daily_investment * (cfg.weight_coefficient / ahr999_value)
        / btc_price := by positivity
    dsimp only
    linarith
  · refine ⟨?_, hq⟩
    dsimp only
    linarith
  · refine ⟨?_, le_refl 0⟩
    dsimp only
    have h0 : 0 ≤ s.position * btc_price := mul_nonneg hq hp.le
    linarith
  · exact ⟨hc, hq⟩

/-- Helper: phase 1 never decreases the position while the indicator is
below `sell_threshold` (the Sell branch, the only one that lowers the
position, requires the indicator to reach `sell_threshold`). -/
theorem phase1_position_mono (cfg : StrategyConfig) (s : PortfolioState)
    (btc_price ahr999_value : ℚ)
    (hdi : 0 < cfg.daily_investment) (hwc : 0 < cfg.weight_coefficient)
    (hv : 0 < ahr999_value) (hp : 0 < btc_price)
    (hsell : ahr999_value < cfg.sell_threshold) :
    s.position ≤ (phase1 cfg s btc_price ahr999_value).2.2.position := by
  simp only [phase1]
  split_ifs with hA hB hC
  · have h0 : 0 ≤ cfg.daily_investment * (cfg.weight_coefficient / ahr999_value)
        / btc_price := by positivity
    dsimp only
    linarith
  · dsimp only
    exact le_refl _
  · exact absurd hsell (not_lt.mpr hC.1)
  · exact le_refl _

/-- Helper: the result of `executeStrategy` when the dip overlay fires. -/
theorem executeStrategy_dip_eq (cfg : StrategyConfig) (s : PortfolioState)
    (btc_price ahr999_value : ℚ)
    (hdip : ahr999_value < cfg.dip_buy_threshold)
    (hcash : 0 < (phase1 cfg s btc_price ahr999_value).2.2.cash) :
    executeStrategy cfg s btc_price ahr999_value =
      (Action.DipBuy,
        (phase1 cfg s btc_price ahr999_value).2.2.cash * cfg.invest_percentage,
        { cash := (phase1 cfg s btc_price ahr999_value).2.2.cash -
            (phase1 cfg s btc_price ahr999_value).2.2.cash * cfg.invest_percentage,
          position := (phase1 cfg s btc_price ahr999_value).2.2.position +
            (phase1 cfg s btc_price ahr999_value).2.2.cash * cfg.invest_percentage
              / btc_price }) := by
  simp only [executeStrategy]
  rw [if_pos ⟨hdip, hcash⟩]

/-- Helper: when the dip overlay does not fire, `executeStrategy`
returns the phase-1 result unchanged. -/
theorem executeStrategy_no_dip_eq (cfg : StrategyConfig) (s : PortfolioState)
    (btc_price ahr999_value : ℚ)
    (h : ¬ (ahr999_value < cfg.dip_buy_threshold ∧
      0 < (phase1 cfg s btc_price ahr999_value).2.2.cash)) :
    executeStrategy cfg s btc_price ahr999_value =
      phase1 cfg s btc_price ahr999_value := by
  simp only [executeStrategy]
  rw [if_neg h]

/-- C8: nonnegativity of cash and position is an invariant of every
`executeStrategy` call, for configs with positive `daily_investment`
and `weight_coefficient` and `invest_percentage` in `[0, 1]`, and
positive indicator and price: the position is only incremented by
nonnegative amounts or reset to 0, and cash is only decremented in the
dip overlay, by the fraction `invest_percentage ≤ 1` of its current
value. -/
theorem C8_nonneg_invariant (cfg : StrategyConfig) (s : PortfolioState)
    (btc_price ahr999_value : ℚ)
    (hdi : 0 < cfg.daily_investment) (hwc : 0 < cfg.weight_coefficient)
    (hip0 : 0 ≤ cfg.invest_percentage) (hip1 : cfg.invest_percentage ≤ 1)
    (hv : 0 < ahr999_value) (hp : 0 < btc_price)
    (hc : 0 ≤ s.cash) (hq : 0 ≤ s.position) :
    0 ≤ (executeStrategy cfg s btc_price ahr999_value).2.2.cash ∧
      0 ≤ (executeStrategy cfg s btc_price ahr999_value).2.2.position := by
  obtain ⟨hc1, hq1⟩ :=
    phase1_state_nonneg cfg s btc_price ahr999_value hdi hwc hv hp hc hq
  simp only [executeStrategy]
  split_ifs with h
  · constructor
    · dsimp only
      nlinarith [mul_nonneg hc1 (sub_nonneg.mpr hip1)]
    · dsimp only
      have h0 : 0 ≤ (phase1 cfg s btc_price ahr999_value).2.2.cash *
          cfg.invest_percentage / btc_price := by positivity
      linarith
  · exact ⟨hc1, hq1⟩

/-- C8 witness: default config, cash 1000, position 0, price 50000,
indicator 0.5 (a call that exercises both phases): the resulting cash
and position are nonnegative. -/
theorem C8_nonneg_invariant_witness :
    ((0 : ℚ) < defaultConfig.daily_investment ∧
        (0 : ℚ) < defaultConfig.weight_coefficient ∧
        (0 : ℚ) ≤ defaultConfig.invest_percentage ∧
        defaultConfig.invest_percentage ≤ 1 ∧
        (0 : ℚ) < 1/2 ∧ (0 : ℚ) < 50000 ∧
        (0 : ℚ) ≤ (⟨1000, 0⟩ : PortfolioState).cash ∧
        (0 : ℚ) ≤ (⟨1000, 0⟩ : PortfolioState).position) ∧
      0 ≤ (executeStrategy defaultConfig ⟨1000, 0⟩ 50000 (1/2)).2.2.cash ∧
      0 ≤ (executeStrategy defaultConfig ⟨1000, 0⟩ 50000 (1/2)).2.2.position := by
  have h1 : (0 : ℚ) < defaultConfig.daily_investment := by norm_num [defaultConfig]
  have h2 : (0 : ℚ) < defaultConfig.weight_coefficient := by norm_num [defaultConfig]
  have h3 : (0 : ℚ) ≤ defaultConfig.invest_percentage := by norm_num [defaultConfig]
  have h4 : defaultConfig.invest_percentage ≤ 1 := by norm_num [defaultConfig]
  have h5 : (0 : ℚ) < 1/2 := by norm_num
  have h6 : (0 : ℚ) < (50000 : ℚ) := by norm_num
  have h7 : (0 : ℚ) ≤ (⟨1000, 0⟩ : PortfolioState).cash := by norm_num
  have h8 : (0 : ℚ) ≤ (⟨1000, 0⟩ : PortfolioState).position := by norm_num
  exact ⟨⟨h1, h2, h3, h4, h5, h6, h7, h8⟩,
    C8_nonneg_invariant defaultConfig ⟨1000, 0⟩ 50000 (1/2)
      h1 h2 h3 h4 h5 h6 h7 h8⟩

/-- C9: under the caller contract `indicatorValue > 0` and `price > 0`,
`executeStrategy` is total: the guarded variant, which fails exactly
where the source would divide by zero (including the unconditional
computation of `dynamic_investment` on every call), returns the
unguarded result. -/
theorem C9_division_totality (cfg : StrategyConfig) (s : PortfolioState)
    (btc_price ahr999_value : ℚ)
    (hv : 0 < ahr999_value) (hp : 0 < btc_price) :
    executeStrategyChecked cfg s btc_price ahr999_value =
      some (executeStrategy cfg s btc_price ahr999_value) := by
  have hv0 : ahr999_value ≠ 0 := ne_of_gt hv
  have hp0 : btc_price ≠ 0 := ne_of_gt hp
  simp only [executeStrategyChecked, executeStrategy, phase1]
  rw [if_neg hv0]
  split_ifs <;> simp_all

/-- C9 witness: default config, cash 10000, position 0, price 50000,
indicator 0.9: the guarded variant succeeds and agrees with
`executeStrategy`. -/
theorem C9_division_totality_witness :
    ((0 : ℚ) < 9/10 ∧ (0 : ℚ) < 50000) ∧
      executeStrategyChecked defaultConfig ⟨10000, 0⟩ 50000 (9/10) =
        some (executeStrategy defaultConfig ⟨10000, 0⟩ 50000 (9/10)) := by
  have h1 : (0 : ℚ) < 9/10 := by norm_num
  have h2 : (0 : ℚ) < (50000 : ℚ) := by norm_num
  exact ⟨⟨h1, h2⟩,
    C9_division_totality defaultConfig ⟨10000, 0⟩ 50000 (9/10) h1 h2⟩

/-- C6: every record emitted by the backtest runner satisfies the
valuation identity — its `portfolio_value` equals
`cash_holdings + bitcoin_quantity * bitcoin_price`, exactly, where the
cash and position are the post-decision state of that step. -/
theorem C6_valuation_identity (cfg : StrategyConfig) (s : PortfolioState)
    (samples : List IndicatorSample) (r : ActionRecord)
    (hr : r ∈ run_backtest cfg s samples) :
    r.portfolio_value = r.cash_holdings + r.bitcoin_quantity * r.bitcoin_price := by
  induction samples generalizing s with
  | nil => simp [run_backtest] at hr
  | cons x xs ih =>
    simp only [run_backtest] at hr
    rcases List.mem_cons.mp hr with h | h
    · subst h
      simp [runStep, calculate_portfolio_value]
    · exact ih _ h

/-- C6 witness: a one-sample series (price 50000, indicator 1.5) run
from cash 10000 yields the record with cash 10100, position 0 and
portfolio value 10100 = 10100 + 0 * 50000. -/
theorem C6_valuation_identity_witness :
    (⟨1, 50000, 3/2, 10100, 0, Action.Hold, 0, 10100⟩ : ActionRecord) ∈
        run_backtest defaultConfig ⟨10000, 0⟩ [⟨1, 50000, 3/2⟩] ∧
      (⟨1, 50000, 3/2, 10100, 0, Action.Hold, 0, 10100⟩ : ActionRecord).portfolio_value =
        (⟨1, 50000, 3/2, 10100, 0, Action.Hold, 0, 10100⟩ : ActionRecord).cash_holdings +
          (⟨1, 50000, 3/2, 10100, 0, Action.Hold, 0, 10100⟩ : ActionRecord).bitcoin_quantity *
            (⟨1, 50000, 3/2, 10100, 0, Action.Hold, 0, 10100⟩ : ActionRecord).bitcoin_price := by
  have hrun : run_backtest defaultConfig ⟨10000, 0⟩ [⟨1, 50000, 3/2⟩] =
      [⟨1, 50000, 3/2, 10100, 0, Action.Hold, 0, 10100⟩] := by
    norm_num [run_backtest, runStep, executeStrategy, phase1,
      calculate_portfolio_value, defaultConfig]
  have hmem : (⟨1, 50000, 3/2, 10100, 0, Action.Hold, 0, 10100⟩ : ActionRecord) ∈
      run_backtest defaultConfig ⟨10000, 0⟩ [⟨1, 50000, 3/2⟩] := by
    rw [hrun]
    exact List.mem_singleton.mpr rfl
  exact ⟨hmem, C6_valuation_identity defaultConfig ⟨10000, 0⟩ _ _ hmem⟩

/-- C10: the backtest is deterministic in its inputs.  When price and
indicator are both supplied (as the runner always does), the fetch
fallback is never consulted: the run produces the same record sequence
for any two fetch oracles, and that sequence is exactly the one of the
pure fold `run_backtest` of `(state, config, price, indicator)` — so
two runs from equal fresh states are identical and no hidden state
influences the result. -/
theorem C10_replay_deterministic (fetchA fetchB : Option (ℚ × ℚ))
    (cfg : StrategyConfig) (s : PortfolioState)
    (samples : List IndicatorSample) :
    run_backtestOpt fetchA cfg s samples = run_backtestOpt fetchB cfg s samples ∧
      run_backtestOpt fetchA cfg s samples = some (run_backtest cfg s samples) := by
  have key : ∀ (f : Option (ℚ × ℚ)) (s : PortfolioState),
      run_backtestOpt f cfg s samples = some (run_backtest cfg s samples) := by
    intro f
    induction samples with
    | nil => intro s; rfl
    | cons x xs ih =>
      intro s
      simp only [run_backtestOpt, executeStrategyOpt, run_backtest, runStep, ih,
        Option.map_some']
  exact ⟨(key fetchA s).trans (key fetchB s).symm, key fetchA s⟩

/-- C3 counterexample: Scenario D (default config, cash 1000, position
0, price 50000, indicator 0.5, both positive inputs) returns DipBuy
with amount 700, but the position increases by
0.018 = 9/500 (the phase-1 buy plus the overlay), not by
`operationAmount / price = 700 / 50000 = 0.014`. -/
theorem C3_counterexample :
    ((0 : ℚ) < 1/2 ∧ (0 : ℚ) < 50000) ∧
      executeStrategy defaultConfig ⟨1000, 0⟩ 50000 (1/2) =
        (Action.DipBuy, 700, ⟨300, 9/500⟩) ∧
      ¬ ((9/500 : ℚ) - 0 = 700 / 50000) := by
  refine ⟨⟨by norm_num, by norm_num⟩, ?_, by norm_num⟩
  norm_num [executeStrategy, phase1, defaultConfig]

/-- C3 (amended): for positive indicator and price and a config in the
spec's operating regime (positive `daily_investment`,
`weight_coefficient` and `invest_percentage`, and
`dip_buy_threshold ≤ sell_threshold`): a Buy increases the position by
exactly `operationAmount / price`; a DipBuy increases the position by
at least `operationAmount / price` — exactly that much from the
overlay itself plus whatever phase 1 already added in the same call —
and in both cases the position strictly increases. -/
theorem C3_position_monotone (cfg : StrategyConfig) (s : PortfolioState)
    (btc_price ahr999_value : ℚ)
    (hv : 0 < ahr999_value) (hp : 0 < btc_price)
    (hdi : 0 < cfg.daily_investment) (hwc : 0 < cfg.weight_coefficient)
    (hip : 0 < cfg.invest_percentage)
    (hord : cfg.dip_buy_threshold ≤ cfg.sell_threshold) :
    ((executeStrategy cfg s btc_price ahr999_value).1 = Action.Buy →
        (executeStrategy cfg s btc_price ahr999_value).2.2.position - s.position =
          (executeStrategy cfg s btc_price ahr999_value).2.1 / btc_price ∧
        s.position < (executeStrategy cfg s btc_price ahr999_value).2.2.position) ∧
      ((executeStrategy cfg s btc_price ahr999_value).1 = Action.DipBuy →
        (executeStrategy cfg s btc_price ahr999_value).2.1 / btc_price ≤
          (executeStrategy cfg s btc_price ahr999_value).2.2.position - s.position ∧
        s.position < (executeStrategy cfg s btc_price ahr999_value).2.2.position) := by
  by_cases hov : ahr999_value < cfg.dip_buy_threshold ∧
      0 < (phase1 cfg s btc_price ahr999_value).2.2.cash
  · rw [executeStrategy_dip_eq cfg s btc_price ahr999_value hov.1 hov.2]
    constructor
    · intro h
      simp at h
    · intro _
      have hsell : ahr999_value < cfg.sell_threshold := lt_of_lt_of_le hov.1 hord
      have hq : s.position ≤ (phase1 cfg s btc_price ahr999_value).2.2.position :=
        phase1_position_mono cfg s btc_price ahr999_value hdi hwc hv hp hsell
      have hinv : 0 < (phase1 cfg s btc_price ahr999_value).2.2.cash *
          cfg.invest_percentage := mul_pos hov.2 hip
      have hdiv : 0 < (phase1 cfg s btc_price ahr999_value).2.2.cash *
          cfg.invest_percentage / btc_price := div_pos hinv hp
      dsimp only
      constructor
      · linarith
      · linarith
  · rw [executeStrategy_no_dip_eq cfg s btc_price ahr999_value hov]
    simp only [phase1]
    split_ifs with hA hB hC
    · constructor
      · intro _
        have hdyn : 0 < cfg.daily_investment *
            (cfg.weight_coefficient / ahr999_value) / btc_price := by positivity
        dsimp only
        constructor
        · ring
        · linarith
      · intro h
        simp at h
    · constructor <;> intro h <;> simp at h
    · constructor <;> intro h <;> simp at h
    · constructor <;> intro h <;> simp at h

/-- C3 (amended) witness: the Scenario D call (default config, cash
1000, price 50000, indicator 0.5) satisfies the hypotheses, its action
is DipBuy, and the position rise 0.018 dominates
`operationAmount / price = 0.014` and is strictly positive. -/
theorem C3_position_monotone_witness :
    ((0 : ℚ) < 1/2 ∧ (0 : ℚ) < 50000 ∧
        (0 : ℚ) < defaultConfig.daily_investment ∧
        (0 : ℚ) < defaultConfig.weight_coefficient ∧
        (0 : ℚ) < defaultConfig.invest_percentage ∧
        defaultConfig.dip_buy_threshold ≤ defaultConfig.sell_threshold) ∧
      (((executeStrategy defaultConfig ⟨1000, 0⟩ 50000 (1/2)).1 = Action.Buy →
          (executeStrategy defaultConfig ⟨1000, 0⟩ 50000 (1/2)).2.2.position -
              (⟨1000, 0⟩ : PortfolioState).position =
            (executeStrategy defaultConfig ⟨1000, 0⟩ 50000 (1/2)).2.1 / 50000 ∧
          (⟨1000, 0⟩ : PortfolioState).position <
            (executeStrategy defaultConfig ⟨1000, 0⟩ 50000 (1/2)).2.2.position) ∧
        ((executeStrategy defaultConfig ⟨1000, 0⟩ 50000 (1/2)).1 = Action.DipBuy →
          (executeStrategy defaultConfig ⟨1000, 0⟩ 50000 (1/2)).2.1 / 50000 ≤
            (executeStrategy defaultConfig ⟨1000, 0⟩ 50000 (1/2)).2.2.position -
              (⟨1000, 0⟩ : PortfolioState).position ∧
          (⟨1000, 0⟩ : PortfolioState).position <
            (executeStrategy defaultConfig ⟨1000, 0⟩ 50000 (1/2)).2.2.position)) := by
  have h1 : (0 : ℚ) < 1/2 := by norm_num
  have h2 : (0 : ℚ) < (50000 : ℚ) := by norm_num
  have h3 : (0 : ℚ) < defaultConfig.daily_investment := by norm_num [defaultConfig]
  have h4 : (0 : ℚ) < defaultConfig.weight_coefficient := by norm_num [defaultConfig]
  have h5 : (0 : ℚ) < defaultConfig.invest_percentage := by norm_num [defaultConfig]
  have h6 : defaultConfig.dip_buy_threshold ≤ defaultConfig.sell_threshold := by
    norm_num [defaultConfig]
  exact ⟨⟨h1, h2, h3, h4, h5, h6⟩,
    C3_position_monotone defaultConfig ⟨1000, 0⟩ 50000 (1/2) h1 h2 h3 h4 h5 h6⟩

end ActiveDCA
